import Mathlib

/-!
Verification of the sen2like atmospheric-correction and packaging stages.

The development shallowly embeds `S2L_Atmcor.py` (the SMAC correction
function `smac_correction` and the quality-indicator postprocessing) and
`S2L_Packager.py` (output naming, per-band packaging, secondary-resolution
branching, quicklook selection, and state reset) as pure Lean functions.
Machine floats are modelled over `ℚ`; numpy arrays over nested lists;
external collaborators (the CAMS/ECMWF dataset, the SMAC inversion
black box, raster I/O) appear as explicit parameters.
-/

namespace Sen2Like

/-- Scene-center atmospheric scalars resolved by `smac_correction`:
water vapour `uH2O` (g·cm⁻²), ozone `uO3` (cm-atm), `pressure` (hPa),
aerosol optical depth `taup550`. -/
structure SceneAtmosphericState where
  uH2O : ℚ
  uO3 : ℚ
  pressure : ℚ
  taup550 : ℚ
deriving DecidableEq, Repr

/-- The fixed fallback constants of `smac_correction` (S2L_Atmcor.py
lines 124-127), used when no CAMS data is found. -/
def fallbackAtmosphericState : SceneAtmosphericState :=
  { uH2O := 2
    uO3 := 331 / 1000
    pressure := 1013095 / 1000
    taup550 := 2 / 10 }

/-- Resolution of the scene atmospheric state in `smac_correction`
(lines 72-127): the external ECMWF/ATMO collaborators are abstracted as
an `Option SceneAtmosphericState` — `some est` stands for a valid CAMS
dataset whose planar least-squares estimate at the scene center is `est`
(lines 74-120, code outside this repository fragment), `none` for
`ecmwf_data.is_valid` being false, in which case the constants of
lines 124-127 are used. -/
def resolveAtmosphericState (ecmwf : Option SceneAtmosphericState) :
    SceneAtmosphericState :=
  match ecmwf with
  | some est => est
  | none => fallbackAtmosphericState

/-- Degree-2 polynomial fit result, mirroring what `smac_correction`
reads out of `np.polyfit(r_toa, r_surf_SMAC, 2, full=True)`: `c2` is
`poly_coefs[0][0]` (quadratic), `c1` is `poly_coefs[0][1]`, `c0` is
`poly_coefs[0][2]` (constant), `residual` is `poly_coefs[1][0]`, the
residual sum of squares. -/
structure PolyFit2 where
  c2 : ℚ
  c1 : ℚ
  c0 : ℚ
  residual : ℚ
deriving DecidableEq, Repr

/-- Determinant of the 3×3 normal-equation matrix of a degree-2
least-squares fit over the abscissas `xs`. -/
def lsqDet (xs : List ℚ) : ℚ :=
  let s0 : ℚ := xs.length
  let s1 := (xs.map (fun x => x)).sum
  let s2 := (xs.map (fun x => x ^ 2)).sum
  let s3 := (xs.map (fun x => x ^ 3)).sum
  let s4 := (xs.map (fun x => x ^ 4)).sum
  s4 * (s2 * s0 - s1 * s1) - s3 * (s3 * s0 - s1 * s2) + s2 * (s3 * s1 - s2 * s2)

/-- Modelled from the spec: `np.polyfit(x, y, 2, full=True)` (numpy, not
part of this repository fragment) "fits a degree-2 polynomial by least
squares to (TOA, surface) pairs, retaining coefficients and the residual
sum of squares". Solved here by Cramer's rule on the normal equations;
the degenerate zero-determinant case (never reached on the 101-point
TOA grid) returns the zero fit. -/
def polyfit2 (pts : List (ℚ × ℚ)) : PolyFit2 :=
  let xs := pts.map Prod.fst
  let s0 : ℚ := pts.length
  let s1 := (xs.map (fun x => x)).sum
  let s2 := (xs.map (fun x => x ^ 2)).sum
  let s3 := (xs.map (fun x => x ^ 3)).sum
  let s4 := (xs.map (fun x => x ^ 4)).sum
  let t0 := (pts.map (fun p => p.2)).sum
  let t1 := (pts.map (fun p => p.1 * p.2)).sum
  let t2 := (pts.map (fun p => p.1 ^ 2 * p.2)).sum
  let det := lsqDet xs
  if det = 0 then { c2 := 0, c1 := 0, c0 := 0, residual := 0 }
  else
    let a := (t2 * (s2 * s0 - s1 * s1) - s3 * (t1 * s0 - t0 * s1)
      + s2 * (t1 * s1 - t0 * s2)) / det
    let b := (s4 * (t1 * s0 - t0 * s1) - t2 * (s3 * s0 - s1 * s2)
      + s2 * (s3 * t0 - s2 * t1)) / det
    let c := (s4 * (s2 * t0 - s1 * t1) - s3 * (s3 * t0 - s2 * t1)
      + t2 * (s3 * s1 - s2 * s2)) / det
    { c2 := a
      c1 := b
      c0 := c
      residual := (pts.map (fun p => (p.2 - (a * p.1 ^ 2 + b * p.1 + c)) ^ 2)).sum }

/-- The TOA reflectance sampling grid of `smac_correction` (line 152):
`r_toa = np.arange(101) / 100.`. -/
def r_toa : List ℚ :=
  (List.range 101).map (fun (i : ℕ) => (i : ℚ) / 100)

/-- The per-band correction curve: the 101 `(TOA, surface)` sample pairs
produced by the SMAC inversion loop (lines 167-171) and the retained
degree-2 fit (line 174). -/
structure CorrectionCurve where
  samples : List (ℚ × ℚ)
  fit : PolyFit2
deriving Repr

/-- Result of one `smac_correction` call: the resolved atmospheric
state, the `(key, value)` pairs written into the run-wide configuration
store (lines 129-132), the returned array, and the correction curve when
one was built. -/
structure SmacOutcome where
  state : SceneAtmosphericState
  configUpdates : List (String × ℚ)
  result : List (List ℚ)
  curve : Option CorrectionCurve

/-- Shallow embedding of `smac_correction` (S2L_Atmcor.py lines 46-186).
`smac_inv` is the external `smac.smac_inv` black box with the argument
order of the call at lines 168-171 (`r_toa[i], theta_s, phi_s, theta_v,
phi_v, pressure, taup550, uO3, uH2O, coefs`); `Coefs` abstracts the
coefficient bundle `smac.coeff(coef_file)`; `coef_file` is `none` when
`get_smac_coefficients` finds no coefficient file for the band, in which
case the function returns `array_in` unchanged (lines 160-162).  The
configuration-store writes of lines 129-132 happen before that check, so
they are recorded in every branch. -/
def smac_correction {Coefs : Type}
    (smac_inv : ℚ → ℚ → ℚ → ℚ → ℚ → ℚ → ℚ → ℚ → ℚ → Coefs → ℚ)
    (theta_s phi_s : ℚ)
    (ecmwf : Option SceneAtmosphericState)
    (coef_file : Option Coefs)
    (array_in : List (List ℚ)) : SmacOutcome :=
  let st := resolveAtmosphericState ecmwf
  let updates := [("uH2O", st.uH2O), ("uO3", st.uO3),
    ("pressure", st.pressure), ("taup550", st.taup550)]
  match coef_file with
  | none =>
      { state := st, configUpdates := updates, result := array_in, curve := none }
  | some smac_coefs =>
      let r_surf_SMAC := r_toa.map (fun t =>
        smac_inv t theta_s phi_s 0 0 st.pressure st.taup550 st.uO3 st.uH2O smac_coefs)
      let samples := r_toa.zip r_surf_SMAC
      let poly_coefs := polyfit2 samples
      let surf_ref := array_in.map (fun row => row.map (fun toa =>
        if toa ≤ 0 then 0
        else poly_coefs.c0 + poly_coefs.c1 * toa + poly_coefs.c2 * toa ^ 2))
      { state := st, configUpdates := updates, result := surf_ref,
        curve := some { samples := samples, fit := poly_coefs } }

/-- A value stored under a quality-indicator key in `metadata.qi`. -/
inductive QIValue where
  | str (s : String)
  | num (q : ℚ)
deriving DecidableEq, Repr

/-- Shallow embedding of `S2L_Atmcor.postprocess` (lines 219-234): the
quality-indicator entries written into `metadata.qi`, in assignment
order.  `use_sen2cor` and `use_smac` are the configuration booleans;
`st` holds the configuration values `uH2O`, `uO3`, `pressure`,
`taup550` read back at lines 231-234 (the values `smac_correction`
stored). -/
def atmcorPostprocess (use_sen2cor use_smac : Bool)
    (st : SceneAtmosphericState) : List (String × QIValue) :=
  if use_sen2cor then
    [("AC_PROCESSOR", QIValue.str "SEN2COR")]
  else if use_smac then
    [("AC_PROCESSOR", QIValue.str "SMAC"),
     ("GRANULE_MEAN_WV", QIValue.num st.uH2O),
     ("OZONE_VALUE", QIValue.num st.uO3),
     ("PRESSURE", QIValue.num st.pressure),
     ("GRANULE_MEAN_AOT", QIValue.num st.taup550)]
  else []

/-- Left-pad `s` with copies of `c` up to width `w`, the behaviour of
the Python format specification `{:0>3}` used for the relative orbit. -/
def leftPad (c : Char) (w : Nat) (s : String) : String :=
  String.mk (List.replicate (w - s.length) c) ++ s

/-- The product attributes `S2L_Packager.base_path` reads: acquisition
date (formatted `%Y%m%d`), MGRS tile code, and sensor name. -/
structure ProductInfo where
  acqYear : Nat
  acqMonth : Nat
  acqDay : Nat
  mgrs : String
  sensor_name : String
deriving Repr

/-- `dt.datetime.strftime(product.acqdate, '%Y%m%d')`: year zero-padded
to 4 digits, month and day to 2. -/
def acqdateToken (p : ProductInfo) : String :=
  leftPad '0' 4 (toString p.acqYear) ++ leftPad '0' 2 (toString p.acqMonth)
    ++ leftPad '0' 2 (toString p.acqDay)

/-- `tilecode.startswith('T')` for the one-character pattern: the tile
code is nonempty and its first character is `T`. -/
def startsWithT (s : String) : Bool :=
  match s.data with
  | [] => false
  | c :: _ => c == 'T'

/-- The tile code stripping of `base_path` (lines 27-29): drop a leading
`T` when present. -/
def stripTileT (s : String) : String :=
  if startsWithT s then s.drop 1 else s

/-- Shallow embedding of `S2L_Packager.base_path` (S2L_Packager.py lines
23-30): strips a leading `T` from the tile code and joins the fixed-order
tokens with underscores; returns `(outdir, tilecode)`. -/
def base_path (relative_orbit : Nat) (p : ProductInfo) : String × String :=
  let acqdate := acqdateToken p
  let tilecode := stripTileT p.mgrs
  (String.intercalate "_"
      ["L2F", tilecode, acqdate, p.sensor_name,
       "R" ++ leftPad '0' 3 (toString relative_orbit)],
   tilecode)

/-- The output band file name built in `S2L_Packager.process` (line 49):
`"_".join([outdir, band, '{}m'.format(int(res))]) + '.TIF'`.  The raster
resolution `res` (an integral pixel size) is taken as a natural. -/
def packageFileName (relative_orbit : Nat) (p : ProductInfo)
    (band : String) (res : Nat) : String :=
  let outdir := (base_path relative_orbit p).1
  String.intercalate "_" [outdir, band, toString res ++ "m"] ++ ".TIF"

/-- The secondary-resolution (30 m) action of `S2L_Packager.process`
under `hlsplus` (lines 62-78). -/
inductive SecondaryAction where
  | resample30m
  | copyPrecomputed30m
deriving DecidableEq, Repr

/-- Shallow embedding of the `hlsplus` block of `S2L_Packager.process`
(lines 62-78): for `product.sensor == 'S2'` the written band is
resampled to 30 m; for `'L8'`/`'L9'` the precomputed
`product.image30m[band]` is written, but only when `band` is a key of
that dictionary; nothing otherwise.  `image30m_bands` lists the keys of
`product.image30m`. -/
def secondaryOutputs (hlsplus : Bool) (sensor : String) (band : String)
    (image30m_bands : List String) : List SecondaryAction :=
  if hlsplus then
    (if sensor == "S2" then [SecondaryAction.resample30m] else []) ++
    (if (sensor == "L8" || sensor == "L9") && image30m_bands.contains band then
      [SecondaryAction.copyPrecomputed30m]
    else [])
  else []

/-- A quicklook emission: the band list handed to `quicklook`, the
output file name, and the QI subdirectory it is placed in. -/
structure QLSpec where
  band_list : List String
  qlname : String
  subdir : String
deriving DecidableEq, Repr

/-- Shallow embedding of the quicklook-selection step of
`S2L_Packager.postprocess` (lines 124-144).  `images` is the band →
file-path mapping `self.images` in insertion order (keys unique).  When
`len(self.images.keys()) > 1` two RGB composites are emitted; otherwise
the grayscale branch runs and indexes `band_list[0]`, which on an empty
mapping raises `IndexError` — modelled by `Except.error`. -/
def quicklookSelection (outdir : String) (images : List (String × String)) :
    Except String (List QLSpec) :=
  if images.length > 1 then
    Except.ok
      [{ band_list := ["B04", "B03", "B02"],
         qlname := outdir ++ "_QL_B432.jpg", subdir := "QL_B432" },
       { band_list := ["B12", "B11", "B8A"],
         qlname := outdir ++ "_QL_B12118A.jpg", subdir := "QL_B12118A" }]
  else
    let band_list := images.map Prod.fst
    match band_list with
    | [] => Except.error "IndexError"
    | b :: _ =>
        Except.ok
          [{ band_list := band_list,
             qlname := outdir ++ "_QL_" ++ b ++ ".jpg",
             subdir := "QL_" ++ b }]

/-- The packager's transient per-product state: the band → output path
mapping `S2L_Packager.images`. -/
structure PackagerState where
  images : List (String × String)
deriving Repr

/-- `images = {}` (S2L_Packager.py line 20): the mapping starts empty. -/
def initPackager : PackagerState := { images := [] }

/-- Dictionary assignment `d[k] = v`: replace the value of an existing
key in place, else append. -/
def assocSet (l : List (String × String)) (k v : String) :
    List (String × String) :=
  if l.any (fun p => p.1 == k) then
    l.map (fun p => if p.1 == k then (k, v) else p)
  else l ++ [(k, v)]

/-- The state effect of one `S2L_Packager.process` call (line 57):
`self.images[band] = image.filepath`. -/
def packageBand (s : PackagerState) (band filepath : String) : PackagerState :=
  { images := assocSet s.images band filepath }

/-- The state effect of `S2L_Packager.postprocess` (line 147):
`self.images.clear()`. -/
def packagerPostprocess (_s : PackagerState) : PackagerState :=
  { images := [] }

/-- Sequential packaging of one product: every band is processed, then
the product is postprocessed. -/
def runProduct (s : PackagerState) (bands : List (String × String)) :
    PackagerState :=
  packagerPostprocess (bands.foldl (fun st bp => packageBand st bp.1 bp.2) s)

/-- Helper: a fold of `runProduct` over any product list leaves the
band-path registry empty as soon as the accumulator's registry is
empty. -/
theorem foldl_runProduct_images (ps : List (List (String × String)))
    (acc : PackagerState) (h : acc.images = []) :
    (ps.foldl runProduct acc).images = [] := by
  induction ps generalizing acc with
  | nil => exact h
  | cons p ps ih => exact ih (runProduct acc p) rfl

/-- The TOA sampling grid has 101 points. -/
theorem r_toa_length : r_toa.length = 101 := by
  rw [r_toa, List.length_map, List.length_range]

/-- The i-th TOA sample is `i / 100`. -/
theorem r_toa_getElem (i : ℕ) (h : i < 101) : r_toa[i]? = some ((i : ℚ) / 100) := by
  rw [r_toa, List.getElem?_map, List.getElem?_range h]
  rfl

/-- The TOA sampling grid starts at 0.00. -/
theorem r_toa_head : r_toa.head? = some 0 := by
  rw [r_toa, List.range_succ_eq_map]
  simp only [List.map_cons, List.head?_cons]
  norm_num

/-- The TOA sampling grid ends at 1.00. -/
theorem r_toa_getLast : r_toa.getLast? = some 1 := by
  rw [r_toa, List.range_succ, List.map_append]
  rw [List.map_singleton, List.getLast?_concat]
  norm_num

/-- Consecutive TOA samples differ by 0.01. -/
theorem r_toa_step (i : ℕ) (h : i + 1 < 101) :
    (r_toa[i + 1]?.getD 0) - (r_toa[i]?.getD 0) = 1 / 100 := by
  rw [r_toa, List.getElem?_map, List.getElem?_map, List.getElem?_range h,
    List.getElem?_range (by omega : i < 101)]
  simp only [Option.map_some', Option.getD_some]
  push_cast
  ring

/-- Projecting the TOA component out of the sampled pairs recovers the
grid. -/
theorem zip_map_fst (f : ℚ → ℚ) :
    ((r_toa.zip (r_toa.map f)).map Prod.fst) = r_toa :=
  List.map_fst_zip _ _ (by rw [List.length_map])

/-- There are as many sampled pairs as grid points. -/
theorem zip_map_length (f : ℚ → ℚ) :
    (r_toa.zip (r_toa.map f)).length = 101 := by
  rw [List.length_zip, List.length_map, r_toa_length]
  exact min_self 101

/-- Sanity check of the modelled fit on exact data: the points
(0,1), (1,3), (2,7), (3,13) lie on `y = x² + x + 1`, and `polyfit2`
recovers exactly that polynomial with zero residual. -/
theorem polyfit2_on_exact_quadratic :
    polyfit2 [((0 : ℚ), 1), (1, 3), (2, 7), (3, 13)] =
      { c2 := 1, c1 := 1, c0 := 1, residual := 0 } := by
  norm_num [polyfit2, lsqDet]

/-- Linearity of the x²-weighted residual sum in the fit coefficients. -/
theorem resid_x2_sum (pts : List (ℚ × ℚ)) (a b c : ℚ) :
    (pts.map (fun p => (p.2 - (a * p.1 ^ 2 + b * p.1 + c)) * p.1 ^ 2)).sum
      = (pts.map (fun p => p.1 ^ 2 * p.2)).sum
        - a * (pts.map (fun p => p.1 ^ 4)).sum
        - b * (pts.map (fun p => p.1 ^ 3)).sum
        - c * (pts.map (fun p => p.1 ^ 2)).sum := by
  induction pts with
  | nil => simp
  | cons q l ih => simp only [List.map_cons, List.sum_cons, ih]; ring

/-- Linearity of the x-weighted residual sum in the fit coefficients. -/
theorem resid_x1_sum (pts : List (ℚ × ℚ)) (a b c : ℚ) :
    (pts.map (fun p => (p.2 - (a * p.1 ^ 2 + b * p.1 + c)) * p.1)).sum
      = (pts.map (fun p => p.1 * p.2)).sum
        - a * (pts.map (fun p => p.1 ^ 3)).sum
        - b * (pts.map (fun p => p.1 ^ 2)).sum
        - c * (pts.map (fun p => p.1)).sum := by
  induction pts with
  | nil => simp
  | cons q l ih => simp only [List.map_cons, List.sum_cons, ih]; ring

/-- Linearity of the plain residual sum in the fit coefficients. -/
theorem resid_x0_sum (pts : List (ℚ × ℚ)) (a b c : ℚ) :
    (pts.map (fun p => p.2 - (a * p.1 ^ 2 + b * p.1 + c))).sum
      = (pts.map (fun p => p.2)).sum
        - a * (pts.map (fun p => p.1 ^ 2)).sum
        - b * (pts.map (fun p => p.1)).sum
        - c * (pts.length : ℚ) := by
  induction pts with
  | nil => simp
  | cons q l ih =>
    simp only [List.map_cons, List.sum_cons, List.length_cons, ih]
    push_cast
    ring

/-- Power sums over the abscissas, expressed through the sample pairs. -/
theorem map_fst_pow_sum (pts : List (ℚ × ℚ)) (k : ℕ) :
    ((pts.map Prod.fst).map (fun x => x ^ k)).sum
      = (pts.map (fun p => p.1 ^ k)).sum := by
  rw [List.map_map]
  rfl

/-- The first power sum over the abscissas, expressed through the
sample pairs. -/
theorem map_fst_id_sum (pts : List (ℚ × ℚ)) :
    ((pts.map Prod.fst).map (fun x => x)).sum
      = (pts.map (fun p => p.1)).sum := by
  rw [List.map_map]
  rfl

/-- The fit returned by `polyfit2` satisfies the three normal equations
of degree-2 least squares — the residuals are orthogonal to `x²`, `x`
and `1` — and its retained `residual` field is the residual sum of
squares of its own coefficients. -/
theorem polyfit2_normal_equations (pts : List (ℚ × ℚ))
    (h : lsqDet (pts.map Prod.fst) ≠ 0) :
    ((pts.map (fun p => (p.2 - ((polyfit2 pts).c2 * p.1 ^ 2 + (polyfit2 pts).c1 * p.1
        + (polyfit2 pts).c0)) * p.1 ^ 2)).sum = 0
    ∧ (pts.map (fun p => (p.2 - ((polyfit2 pts).c2 * p.1 ^ 2 + (polyfit2 pts).c1 * p.1
        + (polyfit2 pts).c0)) * p.1)).sum = 0
    ∧ (pts.map (fun p => p.2 - ((polyfit2 pts).c2 * p.1 ^ 2 + (polyfit2 pts).c1 * p.1
        + (polyfit2 pts).c0))).sum = 0)
    ∧ (polyfit2 pts).residual =
      (pts.map (fun p => (p.2 - ((polyfit2 pts).c2 * p.1 ^ 2 + (polyfit2 pts).c1 * p.1
        + (polyfit2 pts).c0)) ^ 2)).sum := by
  have hdet : lsqDet (pts.map Prod.fst)
      = (pts.map (fun p => p.1 ^ 4)).sum * ((pts.map (fun p => p.1 ^ 2)).sum * (pts.length : ℚ)
          - (pts.map (fun p => p.1)).sum * (pts.map (fun p => p.1)).sum)
        - (pts.map (fun p => p.1 ^ 3)).sum * ((pts.map (fun p => p.1 ^ 3)).sum * (pts.length : ℚ)
          - (pts.map (fun p => p.1)).sum * (pts.map (fun p => p.1 ^ 2)).sum)
        + (pts.map (fun p => p.1 ^ 2)).sum * ((pts.map (fun p => p.1 ^ 3)).sum * (pts.map (fun p => p.1)).sum
          - (pts.map (fun p => p.1 ^ 2)).sum * (pts.map (fun p => p.1 ^ 2)).sum) := by
    unfold lsqDet
    rw [map_fst_pow_sum, map_fst_pow_sum, map_fst_pow_sum, map_fst_id_sum, List.length_map]
  have hptsne := hdet ▸ h
  simp only [polyfit2, map_fst_pow_sum, map_fst_id_sum, List.length_map]
  rw [if_neg h]
  refine ⟨⟨?_, ?_, ?_⟩, rfl⟩
  · rw [resid_x2_sum, hdet]
    field_simp
    ring
  · rw [resid_x1_sum, hdet]
    field_simp
    ring
  · rw [resid_x0_sum, hdet]
    field_simp
    ring

/-- Orthogonal decomposition of the residual sum of squares of an
arbitrary quadratic (A, B, C) around a reference quadratic (a, b, c). -/
theorem rss_decomposition (pts : List (ℚ × ℚ)) (a b c A B C : ℚ) :
    (pts.map (fun p => (p.2 - (A * p.1 ^ 2 + B * p.1 + C)) ^ 2)).sum
      = (pts.map (fun p => (p.2 - (a * p.1 ^ 2 + b * p.1 + c)) ^ 2)).sum
        + (pts.map (fun p => ((a - A) * p.1 ^ 2 + (b - B) * p.1 + (c - C)) ^ 2)).sum
        + 2 * ((a - A) * (pts.map (fun p => (p.2 - (a * p.1 ^ 2 + b * p.1 + c)) * p.1 ^ 2)).sum
             + (b - B) * (pts.map (fun p => (p.2 - (a * p.1 ^ 2 + b * p.1 + c)) * p.1)).sum
             + (c - C) * (pts.map (fun p => p.2 - (a * p.1 ^ 2 + b * p.1 + c))).sum) := by
  induction pts with
  | nil => simp
  | cons q l ih => simp only [List.map_cons, List.sum_cons, ih]; ring

/-- A quadratic satisfying the normal equations minimizes the residual
sum of squares over all quadratics. -/
theorem rss_min_of_normal (pts : List (ℚ × ℚ)) (a b c A B C : ℚ)
    (h2 : (pts.map (fun p => (p.2 - (a * p.1 ^ 2 + b * p.1 + c)) * p.1 ^ 2)).sum = 0)
    (h1 : (pts.map (fun p => (p.2 - (a * p.1 ^ 2 + b * p.1 + c)) * p.1)).sum = 0)
    (h0 : (pts.map (fun p => p.2 - (a * p.1 ^ 2 + b * p.1 + c))).sum = 0) :
    (pts.map (fun p => (p.2 - (a * p.1 ^ 2 + b * p.1 + c)) ^ 2)).sum ≤
      (pts.map (fun p => (p.2 - (A * p.1 ^ 2 + B * p.1 + C)) ^ 2)).sum := by
  have key := rss_decomposition pts a b c A B C
  have hd : 0 ≤ (pts.map (fun p =>
      ((a - A) * p.1 ^ 2 + (b - B) * p.1 + (c - C)) ^ 2)).sum := by
    apply List.sum_nonneg
    intro x hx
    obtain ⟨p, hp, rfl⟩ := List.mem_map.mp hx
    exact sq_nonneg _
  rw [key, h2, h1, h0]
  linarith

/-- `polyfit2` is a least-squares fit: whenever the normal-equation
system is nondegenerate, its residual sum of squares is minimal among
all degree-2 polynomials. -/
theorem polyfit2_least_squares (pts : List (ℚ × ℚ))
    (h : lsqDet (pts.map Prod.fst) ≠ 0) (A B C : ℚ) :
    (polyfit2 pts).residual ≤
      (pts.map (fun p => (p.2 - (A * p.1 ^ 2 + B * p.1 + C)) ^ 2)).sum := by
  obtain ⟨⟨h2, h1, h0⟩, hres⟩ := polyfit2_normal_equations pts h
  rw [hres]
  exact rss_min_of_normal pts _ _ _ A B C h2 h1 h0

/-- Clearing denominators in the power sums of the TOA grid. -/
theorem list_sum_pow_mul (l : List ℕ) (k : ℕ) :
    (l.map (fun (i : ℕ) => ((i : ℚ) / 100) ^ k)).sum * (100 : ℚ) ^ k
      = ((l.map (fun i => i ^ k)).sum : ℕ) := by
  have h100 : ((100 : ℚ)) ^ k ≠ 0 := pow_ne_zero k (by norm_num)
  induction l with
  | nil => simp
  | cons a l ih =>
    rw [List.map_cons, List.sum_cons, add_mul, ih, div_pow, div_mul_cancel₀ _ h100]
    push_cast [List.map_cons, List.sum_cons]
    ring

/-- Power sums of the TOA grid reduce to natural-number power sums. -/
theorem list_sum_pow_div (l : List ℕ) (k : ℕ) :
    (l.map (fun (i : ℕ) => ((i : ℚ) / 100) ^ k)).sum
      = ((l.map (fun i => i ^ k)).sum : ℕ) / (100 : ℚ) ^ k := by
  have h100 : ((100 : ℚ)) ^ k ≠ 0 := pow_ne_zero k (by norm_num)
  rw [eq_div_iff h100]
  exact list_sum_pow_mul l k

/-- The k-th power sum of the 101-point TOA grid. -/
theorem r_toa_sum_pow (k : ℕ) :
    (r_toa.map (fun x => x ^ k)).sum
      = (((List.range 101).map (fun i => i ^ k)).sum : ℕ) / (100 : ℚ) ^ k := by
  rw [r_toa, List.map_map]
  exact list_sum_pow_div (List.range 101) k

/-- Concrete first power sum of 0..100. -/
theorem range101_sum_pow1 : ((List.range 101).map (fun i => i ^ 1)).sum = 5050 := by
  decide

/-- Concrete second power sum of 0..100. -/
theorem range101_sum_pow2 : ((List.range 101).map (fun i => i ^ 2)).sum = 338350 := by
  decide

/-- Concrete third power sum of 0..100. -/
theorem range101_sum_pow3 : ((List.range 101).map (fun i => i ^ 3)).sum = 25502500 := by
  decide

/-- Concrete fourth power sum of 0..100. -/
theorem range101_sum_pow4 : ((List.range 101).map (fun i => i ^ 4)).sum = 2050333330 := by
  decide

/-- The normal-equation determinant of the 101-point TOA grid does not
vanish, so the curve's fit is the genuine least-squares solution. -/
theorem lsqDet_r_toa_ne_zero : lsqDet r_toa ≠ 0 := by
  have e1 : (r_toa.map (fun x => x)).sum = 5050 / 100 := by
    have h := r_toa_sum_pow 1
    rw [range101_sum_pow1] at h
    simpa using h
  have e2 : (r_toa.map (fun x => x ^ 2)).sum = 338350 / 100 ^ 2 := by
    have h := r_toa_sum_pow 2
    rw [range101_sum_pow2] at h
    exact_mod_cast h
  have e3 : (r_toa.map (fun x => x ^ 3)).sum = 25502500 / 100 ^ 3 := by
    have h := r_toa_sum_pow 3
    rw [range101_sum_pow3] at h
    exact_mod_cast h
  have e4 : (r_toa.map (fun x => x ^ 4)).sum = 2050333330 / 100 ^ 4 := by
    have h := r_toa_sum_pow 4
    rw [range101_sum_pow4] at h
    exact_mod_cast h
  have e0 : (r_toa.length : ℚ) = 101 := by
    rw [r_toa_length]
    norm_num
  unfold lsqDet
  rw [e1, e2, e3, e4, e0]
  norm_num

/-- C1: when the atmospheric dataset is invalid (`ecmwf = none`, i.e.
`ecmwf_data.is_valid` is false), the resolved `SceneAtmosphericState` is
exactly the fixed fallback constants uH2O = 2.0, uO3 = 0.331,
pressure = 1013.095, taup550 = 0.2, and exactly these values are
recorded into the run-wide configuration store — in every branch, since
the configuration writes precede the coefficient lookup. -/
theorem claim_C1_fallback_constants {Coefs : Type}
    (smac_inv : ℚ → ℚ → ℚ → ℚ → ℚ → ℚ → ℚ → ℚ → ℚ → Coefs → ℚ)
    (theta_s phi_s : ℚ) (coef_file : Option Coefs) (array_in : List (List ℚ)) :
    (smac_correction smac_inv theta_s phi_s none coef_file array_in).state =
      { uH2O := 2, uO3 := 331 / 1000, pressure := 1013095 / 1000,
        taup550 := 2 / 10 }
    ∧ (smac_correction smac_inv theta_s phi_s none coef_file array_in).configUpdates =
      [("uH2O", (2 : ℚ)), ("uO3", 331 / 1000), ("pressure", 1013095 / 1000),
       ("taup550", 2 / 10)] := by
  cases coef_file <;>
    exact ⟨rfl, rfl⟩

/-- C2: when no coefficient bundle exists for the (sensor, band) pair
(`coef_file = none`), `smac_correction` skips the correction entirely
and returns the original TOA array itself, with no curve built. -/
theorem claim_C2_unsupported_band_passthrough {Coefs : Type}
    (smac_inv : ℚ → ℚ → ℚ → ℚ → ℚ → ℚ → ℚ → ℚ → ℚ → Coefs → ℚ)
    (theta_s phi_s : ℚ) (ecmwf : Option SceneAtmosphericState)
    (array_in : List (List ℚ)) :
    (smac_correction smac_inv theta_s phi_s ecmwf (none : Option Coefs)
        array_in).result = array_in
    ∧ (smac_correction smac_inv theta_s phi_s ecmwf (none : Option Coefs)
        array_in).curve = none :=
  ⟨rfl, rfl⟩

/-- C4: band correction evaluates `surface = c0 + c1·toa + c2·toa²`
elementwise on the input grid, forcing the output to 0 at every pixel
whose input TOA value is ≤ 0; in particular an all-zero TOA grid yields
an all-zero output grid. -/
theorem claim_C4_applier_poly_and_nodata {Coefs : Type}
    (smac_inv : ℚ → ℚ → ℚ → ℚ → ℚ → ℚ → ℚ → ℚ → ℚ → Coefs → ℚ)
    (theta_s phi_s : ℚ) (ecmwf : Option SceneAtmosphericState) (c : Coefs)
    (array_in : List (List ℚ)) :
    (∃ fit : PolyFit2,
      (smac_correction smac_inv theta_s phi_s ecmwf (some c)
          array_in).curve.map CorrectionCurve.fit = some fit
      ∧ (smac_correction smac_inv theta_s phi_s ecmwf (some c)
          array_in).result =
        array_in.map (fun row => row.map (fun toa =>
          if toa ≤ 0 then 0 else fit.c0 + fit.c1 * toa + fit.c2 * toa ^ 2)))
    ∧ ∀ nrows ncols : ℕ,
      (smac_correction smac_inv theta_s phi_s ecmwf (some c)
          (List.replicate nrows (List.replicate ncols 0))).result =
        List.replicate nrows (List.replicate ncols 0) := by
  constructor
  · exact ⟨_, rfl, rfl⟩
  · intro nrows ncols
    simp [smac_correction, List.map_replicate]

/-- C5: the packager's output band file name is the underscore-join of
the fixed-order tokens (product tag `L2F`, tile code with a leading `T`
stripped, acquisition date `YYYYMMDD`, sensor name, relative orbit
zero-padded to 3 digits, band, integer resolution suffix); on tile
`T32TQM`, date 2021-05-04, sensor `S2A`, orbit 7, band `B04`,
resolution 10 it is `L2F_32TQM_20210504_S2A_R007_B04_10m.TIF`. -/
theorem claim_C5_packager_naming :
    (∀ (orbit : Nat) (p : ProductInfo) (band : String) (res : Nat),
      packageFileName orbit p band res =
        String.intercalate "_"
          ["L2F", stripTileT p.mgrs, acqdateToken p, p.sensor_name,
           "R" ++ leftPad '0' 3 (toString orbit), band, toString res ++ "m"]
          ++ ".TIF")
    ∧ packageFileName 7
        { acqYear := 2021, acqMonth := 5, acqDay := 4, mgrs := "T32TQM",
          sensor_name := "S2A" } "B04" 10
      = "L2F_32TQM_20210504_S2A_R007_B04_10m.TIF" := by
  constructor
  · intro orbit p band res
    rfl
  · rfl

/-- C7: the packager's band-path registry starts empty, one product's
`process*; postprocess` sequence always ends with it empty, and in a
sequential run over any list of products it is empty whenever the next
product begins. -/
theorem claim_C7_registry_reset :
    initPackager.images = []
    ∧ (∀ (s : PackagerState) (bands : List (String × String)),
        (runProduct s bands).images = [])
    ∧ ∀ products : List (List (String × String)),
        (products.foldl runProduct initPackager).images = [] := by
  refine ⟨rfl, fun s bands => rfl, fun products => ?_⟩
  exact foldl_runProduct_images products initPackager rfl

/-- C10: invoking the quicklook-selection step with an empty band-path
registry takes the grayscale branch (the `len > 1` test fails) and fails
on `band_list[0]` with an `IndexError`, instead of emitting no quicklook
and completing. -/
theorem claim_C10_empty_registry_error (outdir : String) :
    quicklookSelection outdir [] = Except.error "IndexError" :=
  rfl

/-- C3: the correction curve built in the coefficient-supported branch
has exactly 101 (TOA, surface) sample pairs, whose TOA values are the
grid 0.00, 0.01, …, 1.00 (start 0, end 1, uniform 0.01 steps); the
retained fit is `polyfit2` of those pairs, whose normal-equation system
is nondegenerate on this grid, whose retained residual is the residual
sum of squares of its coefficients, and whose residual is minimal among
all degree-2 polynomials — a genuine least-squares fit. -/
theorem claim_C3_curve_structure {Coefs : Type}
    (smac_inv : ℚ → ℚ → ℚ → ℚ → ℚ → ℚ → ℚ → ℚ → ℚ → Coefs → ℚ)
    (theta_s phi_s : ℚ) (ecmwf : Option SceneAtmosphericState) (c : Coefs)
    (array_in : List (List ℚ)) :
    ∃ curve : CorrectionCurve,
      (smac_correction smac_inv theta_s phi_s ecmwf (some c)
        array_in).curve = some curve
      ∧ curve.samples.length = 101
      ∧ curve.samples.map Prod.fst = r_toa
      ∧ (curve.samples.map Prod.fst).head? = some 0
      ∧ (curve.samples.map Prod.fst).getLast? = some 1
      ∧ (∀ i : ℕ, i + 1 < 101 →
          ((curve.samples.map Prod.fst)[i + 1]?.getD 0)
            - ((curve.samples.map Prod.fst)[i]?.getD 0) = 1 / 100)
      ∧ curve.fit = polyfit2 curve.samples
      ∧ lsqDet (curve.samples.map Prod.fst) ≠ 0
      ∧ curve.fit.residual =
          (curve.samples.map (fun p =>
            (p.2 - (curve.fit.c2 * p.1 ^ 2 + curve.fit.c1 * p.1
              + curve.fit.c0)) ^ 2)).sum
      ∧ ∀ A B C : ℚ, curve.fit.residual ≤
          (curve.samples.map (fun p =>
            (p.2 - (A * p.1 ^ 2 + B * p.1 + C)) ^ 2)).sum := by
  have hdet : ∀ f : ℚ → ℚ,
      lsqDet ((r_toa.zip (r_toa.map f)).map Prod.fst) ≠ 0 := by
    intro f
    rw [zip_map_fst]
    exact lsqDet_r_toa_ne_zero
  refine ⟨_, rfl, zip_map_length _, zip_map_fst _, ?_, ?_, ?_, rfl, hdet _, ?_, ?_⟩
  · rw [zip_map_fst]
    exact r_toa_head
  · rw [zip_map_fst]
    exact r_toa_getLast
  · intro i hi
    rw [zip_map_fst]
    exact r_toa_step i hi
  · exact (polyfit2_normal_equations _ (hdet _)).2
  · intro A B C
    exact polyfit2_least_squares _ (hdet _) A B C

/-- Witness for C3 at a concrete instantiation (identity inversion,
unit coefficient bundle, empty image). -/
theorem claim_C3_curve_structure_witness :
    ∃ curve : CorrectionCurve,
      (smac_correction (fun t _ _ _ _ _ _ _ _ (_ : Unit) => t) 0 0 none
        (some ()) []).curve = some curve
      ∧ curve.samples.length = 101
      ∧ curve.samples.map Prod.fst = r_toa
      ∧ (curve.samples.map Prod.fst).head? = some 0
      ∧ (curve.samples.map Prod.fst).getLast? = some 1
      ∧ (∀ i : ℕ, i + 1 < 101 →
          ((curve.samples.map Prod.fst)[i + 1]?.getD 0)
            - ((curve.samples.map Prod.fst)[i]?.getD 0) = 1 / 100)
      ∧ curve.fit = polyfit2 curve.samples
      ∧ lsqDet (curve.samples.map Prod.fst) ≠ 0
      ∧ curve.fit.residual =
          (curve.samples.map (fun p =>
            (p.2 - (curve.fit.c2 * p.1 ^ 2 + curve.fit.c1 * p.1
              + curve.fit.c0)) ^ 2)).sum
      ∧ ∀ A B C : ℚ, curve.fit.residual ≤
          (curve.samples.map (fun p =>
            (p.2 - (A * p.1 ^ 2 + B * p.1 + C)) ^ 2)).sum :=
  claim_C3_curve_structure (fun t _ _ _ _ _ _ _ _ (_ : Unit) => t) 0 0 none () []

/-- C6: with exactly one produced band the quicklook step emits exactly
one grayscale quicklook for that band; with two or more produced bands
it emits exactly the true-color (B04/B03/B02) and false-color
(B12/B11/B8A) composites and nothing else. -/
theorem claim_C6_quicklook_selection (outdir : String)
    (images : List (String × String)) :
    (images.length = 1 → ∃ b : String, images.map Prod.fst = [b] ∧
      quicklookSelection outdir images = Except.ok
        [{ band_list := [b], qlname := outdir ++ "_QL_" ++ b ++ ".jpg",
           subdir := "QL_" ++ b }])
    ∧ (images.length > 1 → quicklookSelection outdir images = Except.ok
        [{ band_list := ["B04", "B03", "B02"],
           qlname := outdir ++ "_QL_B432.jpg", subdir := "QL_B432" },
         { band_list := ["B12", "B11", "B8A"],
           qlname := outdir ++ "_QL_B12118A.jpg", subdir := "QL_B12118A" }]) := by
  constructor
  · intro h
    obtain ⟨p, rfl⟩ := List.length_eq_one.mp h
    exact ⟨p.1, rfl, rfl⟩
  · intro h
    unfold quicklookSelection
    rw [if_pos h]

/-- Witness for C6: a one-band registry yields the grayscale quicklook,
a two-band registry yields the two composites. -/
theorem claim_C6_quicklook_selection_witness :
    (∃ b : String, [("B04", "p4")].map Prod.fst = [b] ∧
      quicklookSelection "out" [("B04", "p4")] = Except.ok
        [{ band_list := [b], qlname := "out" ++ "_QL_" ++ b ++ ".jpg",
           subdir := "QL_" ++ b }])
    ∧ quicklookSelection "out" [("B04", "p4"), ("B03", "p3")] = Except.ok
        [{ band_list := ["B04", "B03", "B02"],
           qlname := "out" ++ "_QL_B432.jpg", subdir := "QL_B432" },
         { band_list := ["B12", "B11", "B8A"],
           qlname := "out" ++ "_QL_B12118A.jpg", subdir := "QL_B12118A" }] :=
  ⟨(claim_C6_quicklook_selection "out" [("B04", "p4")]).1 rfl,
   (claim_C6_quicklook_selection "out" [("B04", "p4"), ("B03", "p3")]).2
     (by decide)⟩

/-- C8: with the external (sen2cor) path configured the quality
annotation records only `AC_PROCESSOR = SEN2COR` and none of the four
atmospheric keys; with the in-process (SMAC) path configured it records
`AC_PROCESSOR = SMAC` together with the four resolved atmospheric
scalars under `GRANULE_MEAN_WV`, `OZONE_VALUE`, `PRESSURE`,
`GRANULE_MEAN_AOT`. -/
theorem claim_C8_quality_keys (use_smac : Bool)
    (st : SceneAtmosphericState) :
    atmcorPostprocess true use_smac st =
      [("AC_PROCESSOR", QIValue.str "SEN2COR")]
    ∧ (∀ k : String,
        k ∈ ["GRANULE_MEAN_WV", "OZONE_VALUE", "PRESSURE", "GRANULE_MEAN_AOT"] →
        k ∉ (atmcorPostprocess true use_smac st).map Prod.fst)
    ∧ atmcorPostprocess false true st =
      [("AC_PROCESSOR", QIValue.str "SMAC"),
       ("GRANULE_MEAN_WV", QIValue.num st.uH2O),
       ("OZONE_VALUE", QIValue.num st.uO3),
       ("PRESSURE", QIValue.num st.pressure),
       ("GRANULE_MEAN_AOT", QIValue.num st.taup550)] := by
  refine ⟨rfl, ?_, rfl⟩
  intro k hk
  rw [show atmcorPostprocess true use_smac st =
    [("AC_PROCESSOR", QIValue.str "SEN2COR")] from rfl]
  fin_cases hk <;> decide

/-- Witness for C8: `PRESSURE` is not among the keys recorded on the
external path, at the fallback atmospheric state. -/
theorem claim_C8_quality_keys_witness :
    "PRESSURE" ∉ (atmcorPostprocess true true
      { uH2O := 2, uO3 := 331 / 1000, pressure := 1013095 / 1000,
        taup550 := 2 / 10 }).map Prod.fst :=
  (claim_C8_quality_keys true
    { uH2O := 2, uO3 := 331 / 1000, pressure := 1013095 / 1000,
      taup550 := 2 / 10 }).2.1 "PRESSURE" (by decide)

/-- Counterexample to C9 as stated: in secondary-resolution mode, an
`L8` band with no precomputed 30 m counterpart (`band` not a key of
`product.image30m`) produces no secondary output at all, although the
claim says that for the L8/L9 family the precomputed coarser-resolution
image is written. -/
theorem claim_C9_counterexample :
    secondaryOutputs true "L8" "B04" [] = [] :=
  rfl

/-- C9 (amended): in secondary-resolution mode at most one secondary
path applies per band: the S2 family always resamples to 30 m; the
L8/L9 family writes the precomputed 30 m image exactly when one exists
for the band, and nothing otherwise; sensors in neither family produce
no secondary file; outside the mode nothing is produced. -/
theorem claim_C9_secondary_outputs (sensor band : String)
    (image30m_bands : List String) :
    (∀ (b : String) (l : List String),
      secondaryOutputs true "S2" b l = [SecondaryAction.resample30m])
    ∧ ((sensor = "L8" ∨ sensor = "L9") →
        secondaryOutputs true sensor band image30m_bands =
          if image30m_bands.contains band then
            [SecondaryAction.copyPrecomputed30m]
          else [])
    ∧ (sensor ≠ "S2" → sensor ≠ "L8" → sensor ≠ "L9" →
        secondaryOutputs true sensor band image30m_bands = [])
    ∧ (∀ (s : String) (b : String) (l : List String),
        (secondaryOutputs true s b l).length ≤ 1)
    ∧ (∀ (s : String) (b : String) (l : List String),
        secondaryOutputs false s b l = []) := by
  refine ⟨fun b l => rfl, ?_, ?_, ?_, fun s b l => rfl⟩
  · rintro (rfl | rfl) <;>
      cases hc : image30m_bands.contains band <;>
        simp only [secondaryOutputs, hc] <;> rfl
  · intro h1 h2 h3
    simp only [secondaryOutputs, beq_eq_false_iff_ne.mpr h1,
      beq_eq_false_iff_ne.mpr h2, beq_eq_false_iff_ne.mpr h3]
    rfl
  · intro s b l
    by_cases h : s = "S2"
    · subst h
      exact Nat.le_refl 1
    · simp only [secondaryOutputs, beq_eq_false_iff_ne.mpr h, if_true,
        Bool.false_eq_true, if_false, List.nil_append]
      split <;> simp

/-- Witness for C9 (amended): an L8 band with a precomputed counterpart
copies it; an L7 band produces nothing. -/
theorem claim_C9_secondary_outputs_witness :
    secondaryOutputs true "L8" "B04" ["B04"] =
      (if (["B04"] : List String).contains "B04" then
        [SecondaryAction.copyPrecomputed30m]
      else [])
    ∧ secondaryOutputs true "L7" "B04" ["B04"] = [] :=
  ⟨(claim_C9_secondary_outputs "L8" "B04" ["B04"]).2.1 (Or.inl rfl),
   (claim_C9_secondary_outputs "L7" "B04" ["B04"]).2.2.1
     (by decide) (by decide) (by decide)⟩

end Sen2Like
